import Mathlib

/-!
Verification of the expense-tracker web application (src/app.py).

The application state is embedded shallowly: the two database tables become
lists of records, each Flask handler becomes a pure function from state and
form fields to an outcome and a new state, and the SQL aggregate queries
become list computations.  Python float values are idealised as exact
rationals extended with the IEEE specials (infinities and NaN); finite
addition is exact (IEEE rounding is not modelled).  SQLite's treatment of
NaN is modelled: SQLite has no NaN value, so binding a NaN double stores
NULL (which the NOT NULL amount column rejects, failing the insert with
IntegrityError), and a NaN aggregate result is returned as NULL.
-/

/-- Idealised Python float: an exact rational, or one of the IEEE special
values produced by float("inf"), float("-inf"), float("nan").  Rounding of
finite values is not modelled. -/
inductive PyFloat where
  | finite (q : ℚ)
  | inf
  | ninf
  | nan
deriving DecidableEq

/-- Addition on idealised floats: NaN propagates, opposite infinities give
NaN, an infinity absorbs finite values, finite values add exactly. -/
def PyFloat.add (a b : PyFloat) : PyFloat :=
  match a, b with
  | .nan, _ => .nan
  | .inf, .nan => .nan
  | .inf, .ninf => .nan
  | .inf, .inf => .inf
  | .inf, .finite _ => .inf
  | .ninf, .nan => .nan
  | .ninf, .inf => .nan
  | .ninf, .ninf => .ninf
  | .ninf, .finite _ => .ninf
  | .finite _, .nan => .nan
  | .finite _, .inf => .inf
  | .finite _, .ninf => .ninf
  | .finite x, .finite y => .finite (x + y)

instance : Add PyFloat := ⟨PyFloat.add⟩

instance : Zero PyFloat := ⟨.finite 0⟩

theorem PyFloat.add_def (a b : PyFloat) : a + b = PyFloat.add a b := rfl

theorem PyFloat.zero_def : (0 : PyFloat) = .finite 0 := rfl

theorem PyFloat.add_assoc' (a b c : PyFloat) : a + b + c = a + (b + c) := by
  cases a <;> cases b <;> cases c <;>
    simp [PyFloat.add_def, PyFloat.add, add_assoc]

theorem PyFloat.add_comm' (a b : PyFloat) : a + b = b + a := by
  cases a <;> cases b <;> simp [PyFloat.add_def, PyFloat.add, add_comm]

theorem PyFloat.zero_add' (a : PyFloat) : 0 + a = a := by
  cases a <;> simp [PyFloat.zero_def, PyFloat.add_def, PyFloat.add]

theorem PyFloat.add_zero' (a : PyFloat) : a + 0 = a := by
  cases a <;> simp [PyFloat.zero_def, PyFloat.add_def, PyFloat.add]

instance : AddCommMonoid PyFloat where
  add_assoc := PyFloat.add_assoc'
  zero_add := PyFloat.zero_add'
  add_zero := PyFloat.add_zero'
  add_comm := PyFloat.add_comm'
  nsmul := nsmulRec

/-- Whitespace characters stripped by Python str.strip() and by float()
(ASCII subset: space, tab, newline, carriage return, vertical tab,
form feed). -/
def isPySpace (c : Char) : Bool :=
  c = ' ' ∨ c = '\t' ∨ c = '\n' ∨ c = '\r' ∨ c = Char.ofNat 11 ∨ c = Char.ofNat 12

/-- Strip leading and trailing whitespace from a character list. -/
def pyStripList (l : List Char) : List Char :=
  ((l.dropWhile isPySpace).reverse.dropWhile isPySpace).reverse

/-- Python str.strip() with no argument: remove leading and trailing
whitespace. -/
def pyStrip (s : String) : String :=
  String.mk (pyStripList s.data)

/-- Numeric value of a decimal digit character. -/
def digitVal (c : Char) : Nat := c.toNat - 48

/-- Consume a maximal Python digit run: digits, with single underscores
allowed between digits.  Returns the accumulated value, the number of
digits consumed, and the rest of the input. -/
def pyDigitsAux : List Char → Nat → Nat → Nat × Nat × List Char
  | [], acc, n => (acc, n, [])
  | [c], acc, n =>
    if c.isDigit then (10 * acc + digitVal c, n + 1, []) else (acc, n, [c])
  | c :: d :: rest, acc, n =>
    if c.isDigit then
      pyDigitsAux (d :: rest) (10 * acc + digitVal c) (n + 1)
    else if c = '_' ∧ d.isDigit then
      pyDigitsAux rest (10 * acc + digitVal d) (n + 1)
    else (acc, n, c :: d :: rest)

/-- A Python digitpart: must begin with a digit; underscores allowed only
between digits. -/
def pyDigitPart (l : List Char) : Option (Nat × Nat × List Char) :=
  match l with
  | c :: _ => if c.isDigit then some (pyDigitsAux l 0 0) else none
  | [] => none

/-- Optional fractional part: a dot followed by an optional digitpart.
Returns value, digit count and rest. -/
def pyFrac (l : List Char) : Nat × Nat × List Char :=
  match l with
  | '.' :: r =>
    (match pyDigitPart r with
     | some x => x
     | none => (0, 0, r))
  | _ => (0, 0, l)

/-- Exponent digits after an optional sign: the whole rest of the input
must be a digitpart. -/
def pyExpDigits (l : List Char) (sign : Int) : Option Int :=
  match pyDigitPart l with
  | some (v, _, []) => some (sign * (v : Int))
  | _ => none

/-- Optional exponent suffix; the input must be empty or a complete
exponent clause. -/
def pyExpPart (l : List Char) : Option Int :=
  match l with
  | [] => some 0
  | c :: r =>
    if c = 'e' ∨ c = 'E' then
      match r with
      | '+' :: r2 => pyExpDigits r2 1
      | '-' :: r2 => pyExpDigits r2 (-1)
      | _ => pyExpDigits r 1
    else none

/-- An unsigned Python float literal body (after sign removal): optional
integer digitpart, optional dot with optional fraction digitpart, at least
one digit overall, optional exponent; the input must be fully consumed. -/
def pyNumber (l : List Char) : Option ℚ :=
  let p1 := match pyDigitPart l with
    | some x => x
    | none => (0, 0, l)
  let p2 := pyFrac p1.2.2
  if p1.2.1 + p2.2.1 = 0 then none
  else
    match pyExpPart p2.2.2 with
    | some e =>
      some (((p1.1 : ℚ) + (p2.1 : ℚ) / (10 : ℚ) ^ p2.2.1) * (10 : ℚ) ^ e)
    | none => none

/-- Modelled from the source's call to Python's built-in float(str):
strip whitespace, take an optional sign, then either a case-insensitive
inf / infinity / nan or a decimal literal (digits with underscores,
optional fraction and exponent).  Models float() on ASCII inputs:
returns none exactly when float() would raise ValueError on an ASCII
string (CPython additionally accepts non-ASCII Unicode digit and
whitespace forms, which are not modelled).  Finite values are exact
rationals (binary rounding not modelled). -/
def pythonFloatParse (s : String) : Option PyFloat :=
  let l := pyStripList s.data
  let sl := match l with
    | '+' :: r => (false, r)
    | '-' :: r => (true, r)
    | _ => (false, l)
  let low := sl.2.map Char.toLower
  if low = ['i', 'n', 'f'] ∨ low = ['i', 'n', 'f', 'i', 'n', 'i', 't', 'y'] then
    some (if sl.1 then .ninf else .inf)
  else if low = ['n', 'a', 'n'] then
    some .nan
  else
    match pyNumber sl.2 with
    | some q => some (.finite (if sl.1 then -q else q))
    | none => none

/-- A calendar date as stored in the expenses table. -/
structure Date where
  year : Nat
  month : Nat
  day : Nat
deriving DecidableEq

/-- Gregorian leap-year rule, as validated by datetime. -/
def isLeap (y : Nat) : Bool :=
  y % 4 = 0 ∧ (y % 100 ≠ 0 ∨ y % 400 = 0)

/-- Number of days in a month, as validated by datetime. -/
def daysInMonth (y m : Nat) : Nat :=
  if m = 2 then (if isLeap y then 29 else 28)
  else if m = 4 ∨ m = 6 ∨ m = 9 ∨ m = 11 then 30
  else 31

/-- The strptime %m pattern: regex 1[0-2]|0[1-9]|[1-9], tried in that
order. -/
def matchMonth (l : List Char) : Option (Nat × List Char) :=
  match l with
  | '1' :: c :: r =>
    if '0' ≤ c ∧ c ≤ '2' then some (10 + digitVal c, r) else some (1, c :: r)
  | '0' :: c :: r =>
    if '1' ≤ c ∧ c ≤ '9' then some (digitVal c, r) else none
  | c :: r =>
    if '1' ≤ c ∧ c ≤ '9' then some (digitVal c, r) else none
  | [] => none

/-- The strptime %d pattern: regex 3[01]|[12]\d|0[1-9]|[1-9], tried in
that order. -/
def matchDay (l : List Char) : Option (Nat × List Char) :=
  match l with
  | '3' :: c :: r =>
    if c = '0' ∨ c = '1' then some (30 + digitVal c, r) else some (3, c :: r)
  | '1' :: c :: r =>
    if c.isDigit then some (10 + digitVal c, r) else some (1, c :: r)
  | '2' :: c :: r =>
    if c.isDigit then some (20 + digitVal c, r) else some (2, c :: r)
  | '0' :: c :: r =>
    if '1' ≤ c ∧ c ≤ '9' then some (digitVal c, r) else none
  | c :: r =>
    if '1' ≤ c ∧ c ≤ '9' then some (digitVal c, r) else none
  | [] => none

/-- Modelled from the source's datetime.strptime(date_str, "%Y-%m-%d"):
four year digits, a dash, a one- or two-digit month, a dash, a one- or
two-digit day, the whole string consumed, and the triple a valid calendar
date (datetime rejects year 0 and out-of-range days). -/
def parseDateYMD (s : String) : Option Date :=
  match s.data with
  | y1 :: y2 :: y3 :: y4 :: '-' :: rest =>
    if y1.isDigit ∧ y2.isDigit ∧ y3.isDigit ∧ y4.isDigit then
      match matchMonth rest with
      | some (m, '-' :: rest2) =>
        (match matchDay rest2 with
         | some (d, []) =>
           if 1 ≤ digitVal y1 * 1000 + digitVal y2 * 100 + digitVal y3 * 10 + digitVal y4 ∧
               d ≤ daysInMonth (digitVal y1 * 1000 + digitVal y2 * 100 + digitVal y3 * 10 + digitVal y4) m then
             some ⟨digitVal y1 * 1000 + digitVal y2 * 100 + digitVal y3 * 10 + digitVal y4, m, d⟩
           else none
         | _ => none)
      | _ => none
    else none
  | _ => none

/-- A row of the users table: id (primary key), unique username, and the
stored bcrypt hash string (column name "password" in the source). -/
structure User where
  id : Nat
  username : String
  password : String
deriving DecidableEq

/-- A row of the expenses table. -/
structure Expense where
  id : Nat
  title : String
  amount : PyFloat
  category : String
  date : Date
  note : String
  user_id : Nat
deriving DecidableEq

/-- The persistent application state: the two tables plus the primary-key
generators. -/
structure AppState where
  users : List User
  expenses : List Expense
  nextUserId : Nat
  nextExpenseId : Nat
deriving DecidableEq

/-- Modelled from the external bcrypt library: generate_password_hash,
idealised as a deterministic injective tagging of the password (real
bcrypt salts and truncates; only determinism-up-to-verification and
injectivity are used). -/
def hashPassword (p : String) : String :=
  String.mk ('#' :: p.data)

/-- Modelled from the external bcrypt library: check_password_hash is true
exactly when the stored string is the hash of the candidate password. -/
def checkPasswordHash (stored pw : String) : Bool :=
  stored = hashPassword pw

inductive SignupOutcome where
  | validationError
  | duplicateUsername
  | success
deriving DecidableEq

/-- The POST branch of the /signup handler: strip the username, reject
empty fields, reject an existing username, otherwise insert a new user row
with the hashed password. -/
def signup (s : AppState) (username password : String) : SignupOutcome × AppState :=
  if pyStrip username = "" ∨ password = "" then
    (.validationError, s)
  else if (s.users.find? (fun u => u.username = pyStrip username)).isSome then
    (.duplicateUsername, s)
  else
    (.success,
      { s with
        users := s.users ++ [⟨s.nextUserId, pyStrip username, hashPassword password⟩],
        nextUserId := s.nextUserId + 1 })

/-- The POST branch of the /login handler: strip the username, look the
user up by exact stored username, verify the password against the stored
hash; returns the logged-in user on success. -/
def login (s : AppState) (username password : String) : Option User :=
  match s.users.find? (fun u => u.username = pyStrip username) with
  | some u => if checkPasswordHash u.password password then some u else none
  | none => none

inductive AddOutcome where
  | missingFields
  | invalidAmount
  | integrityError
  | added
deriving DecidableEq

/-- The POST branch of the /dashboard handler (add expense): strip title,
category and note; require title, raw amount string and category
non-empty; parse the amount with Python float(); parse the date with
strptime, falling back to the current UTC date; insert the expense row
owned by the current user.  SQLite has no NaN value: binding a NaN double
stores NULL, so with amount NaN the INSERT violates the NOT NULL amount
column and db.session.commit() raises IntegrityError — the request fails
with a 500 and no row is persisted.  All other parsed amounts (finite
values and the two infinities) are stored unchanged. -/
def addExpense (s : AppState) (u : User)
    (title amount category dateStr note : String) (now : Date) :
    AddOutcome × AppState :=
  if pyStrip title = "" ∨ amount = "" ∨ pyStrip category = "" then
    (.missingFields, s)
  else
    match pythonFloatParse amount with
    | none => (.invalidAmount, s)
    | some a =>
      if a = .nan then (.integrityError, s)
      else
        (.added,
          { s with
            expenses := s.expenses ++
              [⟨s.nextExpenseId, pyStrip title, a, pyStrip category,
                (parseDateYMD dateStr).getD now, pyStrip note, u.id⟩],
            nextExpenseId := s.nextExpenseId + 1 })

inductive DeleteOutcome where
  | notFound
  | forbidden
  | deleted
deriving DecidableEq

/-- The /delete/<id> handler: get_or_404 on the primary key, then the
ownership check, then row deletion. -/
def deleteExpense (s : AppState) (u : User) (eid : Nat) :
    DeleteOutcome × AppState :=
  match s.expenses.find? (fun e => e.id = eid) with
  | none => (.notFound, s)
  | some e =>
    if e.user_id ≠ u.id then (.forbidden, s)
    else (.deleted, { s with expenses := s.expenses.eraseP (fun x => x.id = eid) })

inductive HttpResp where
  | redirectDashboard
  | notFoundPage
deriving DecidableEq

/-- The HTTP response produced by each branch of the delete handler:
get_or_404 aborts with 404 when the row is missing, every other branch
redirects to the dashboard. -/
def deleteResponse (o : DeleteOutcome) : HttpResp :=
  match o with
  | .notFound => .notFoundPage
  | .forbidden => .redirectDashboard
  | .deleted => .redirectDashboard

/-- The rows of the expenses table belonging to one user (the WHERE
user_id = ... filter shared by all dashboard queries). -/
def expensesOf (s : AppState) (uid : Nat) : List Expense :=
  s.expenses.filter (fun e => e.user_id = uid)

/-- SQLite SUM over a float column: NULL (none) on an empty set of rows,
and NULL when the IEEE result is NaN (SQLite has no NaN: a NaN aggregate
result is returned as NULL, e.g. when the rows mix +inf and -inf);
otherwise the sum. -/
def sqlSum (l : List PyFloat) : Option PyFloat :=
  match l with
  | [] => none
  | _ => if l.sum = .nan then none else some l.sum

/-- The Python "x or 0.0" applied to the scalar SUM result: None and the
falsy 0.0 become 0.0, every other value passes through. -/
def pyOrZero (o : Option PyFloat) : PyFloat :=
  match o with
  | none => .finite 0
  | some v => if v = .finite 0 then .finite 0 else v

/-- The dashboard total query: SUM of the user's amounts, with "or 0.0". -/
def totalForUser (s : AppState) (uid : Nat) : PyFloat :=
  pyOrZero (sqlSum ((expensesOf s uid).map (·.amount)))

/-- Date comparison used by ORDER BY date DESC: a sorts no later than b
when a's date is at least b's date, comparing year, month, day
lexicographically. -/
def dateGeb (a b : Date) : Bool :=
  b.year < a.year ∨ (b.year = a.year ∧
    (b.month < a.month ∨ (b.month = a.month ∧ b.day ≤ a.day)))

/-- The dashboard expense list query: the user's expenses ordered by date
descending. -/
def listForUser (s : AppState) (uid : Nat) : List Expense :=
  (expensesOf s uid).mergeSort (fun a b => dateGeb a.date b.date)

/-! ### Helper lemmas -/

theorem PyFloat.add_nan (x : PyFloat) : x + PyFloat.nan = PyFloat.nan := by
  cases x <;> rfl

theorem totalForUser_eq_sum (s : AppState) (uid : Nat)
    (h : ((expensesOf s uid).map (·.amount)).sum ≠ PyFloat.nan) :
    totalForUser s uid = ((expensesOf s uid).map (·.amount)).sum := by
  unfold totalForUser
  cases hm : (expensesOf s uid).map (·.amount) with
  | nil => rfl
  | cons a t =>
    rw [hm] at h
    have hs : sqlSum (a :: t) = some ((a :: t).sum) := by
      simp only [sqlSum]
      rw [if_neg h]
    show pyOrZero (sqlSum (a :: t)) = (a :: t).sum
    rw [hs]
    simp only [pyOrZero]
    split
    · rename_i h0
      exact h0.symm
    · rfl

theorem totalForUser_of_nan (s : AppState) (uid : Nat)
    (h : ((expensesOf s uid).map (·.amount)).sum = PyFloat.nan) :
    totalForUser s uid = PyFloat.finite 0 := by
  unfold totalForUser
  cases hm : (expensesOf s uid).map (·.amount) with
  | nil =>
    rw [hm] at h
    exact absurd h (by decide)
  | cons a t =>
    rw [hm] at h
    have hs : sqlSum (a :: t) = none := by
      simp only [sqlSum]
      rw [if_pos h]
    show pyOrZero (sqlSum (a :: t)) = PyFloat.finite 0
    rw [hs]
    rfl

theorem dateGeb_trans (a b c : Date) :
    dateGeb a b → dateGeb b c → dateGeb a c := by
  simp only [dateGeb, decide_eq_true_eq]
  omega

theorem dateGeb_total (a b : Date) : dateGeb a b || dateGeb b a := by
  simp only [dateGeb, Bool.or_eq_true, decide_eq_true_eq]
  omega

theorem find?_append_single {α : Type} (l : List α) (x : α) (p : α → Bool)
    (hl : l.find? p = none) (hx : p x) :
    (l ++ [x]).find? p = some x := by
  induction l with
  | nil => simp [List.find?, hx]
  | cons a t ih =>
    cases hpa : p a with
    | true => simp [List.find?, hpa] at hl
    | false =>
      rw [List.find?_cons_of_neg _ (by simp [hpa])] at hl
      rw [List.cons_append, List.find?_cons_of_neg _ (by simp [hpa])]
      exact ih hl

theorem hashPassword_inj {a b : String} (h : hashPassword a = hashPassword b) :
    a = b := by
  unfold hashPassword at h
  have hd : '#' :: a.data = '#' :: b.data := congrArg String.data h
  have hd2 : a.data = b.data := by injection hd
  cases a
  cases b
  exact congrArg String.mk hd2

theorem find?_id_of_mem_nodup {l : List Expense} {e : Expense}
    (hn : (l.map (·.id)).Nodup) (he : e ∈ l) :
    l.find? (fun x => x.id = e.id) = some e := by
  cases hf : l.find? (fun x => x.id = e.id) with
  | none =>
    rw [List.find?_eq_none] at hf
    exact absurd (by simp) (hf e he)
  | some x =>
    have hx : x ∈ l := List.mem_of_find?_eq_some hf
    have hid : x.id = e.id := by simpa using List.find?_some hf
    rw [List.inj_on_of_nodup_map hn hx he hid]

theorem pythonFloatParse_empty : pythonFloatParse "" = none := rfl

/-! ### Concrete states used by witnesses and counterexamples -/

def egUser1 : User := ⟨1, "alice", hashPassword "pw123"⟩

def egUser2 : User := ⟨2, "bob", hashPassword "pw"⟩

def egDate1 : Date := ⟨2024, 1, 5⟩

def egDate2 : Date := ⟨2024, 1, 10⟩

def egExp1 : Expense := ⟨1, "Coffee", .finite 5, "Food", egDate1, "", 1⟩

def egExp2 : Expense := ⟨2, "Bus", .finite 2, "Transport", egDate2, "", 2⟩

def egState : AppState := ⟨[egUser1, egUser2], [egExp1, egExp2], 3, 3⟩

def egStateNoExp : AppState := ⟨[egUser1], [], 2, 1⟩

def egExpInf : Expense := ⟨1, "Up", .inf, "A", egDate1, "", 1⟩

def egExpNinf : Expense := ⟨2, "Down", .ninf, "B", egDate1, "", 1⟩

def egStateInf : AppState := ⟨[egUser1], [egExpInf, egExpNinf], 2, 3⟩

/-! ### Claims -/

/-- Claim C1, counterexample: a user holding a +inf and a -inf expense
(both storable; only NaN is rejected by SQLite) has amount sum NaN, but
SQLite returns the NaN SUM as NULL and the handler's "or 0.0" turns it
into 0.0, so totalForUser is 0 and not the sum of the amounts. -/
theorem claim_C1_counterexample :
    ((expensesOf egStateInf 1).map (·.amount)).sum = PyFloat.nan ∧
    totalForUser egStateInf 1 = PyFloat.finite 0 ∧
    PyFloat.finite 0 ≠ PyFloat.nan := by
  decide

/-- Claim C1 (amended): totalForUser equals the sum of the amounts of
exactly that user's expenses whenever that sum is not NaN, and returns 0
when the user has no expenses; when the sum is NaN (amounts mixing +inf
and -inf), SQLite's SUM returns NULL and totalForUser is 0 instead of
the NaN sum.  Finite addition is idealised as exact (IEEE rounding, which
affects both sides of the equality alike, is not modelled). -/
theorem claim_C1_total (s : AppState) (uid : Nat) :
    (((expensesOf s uid).map (·.amount)).sum ≠ PyFloat.nan →
      totalForUser s uid = ((expensesOf s uid).map (·.amount)).sum) ∧
    (expensesOf s uid = [] → totalForUser s uid = PyFloat.finite 0) ∧
    (((expensesOf s uid).map (·.amount)).sum = PyFloat.nan →
      totalForUser s uid = PyFloat.finite 0) := by
  refine ⟨totalForUser_eq_sum s uid, fun h => ?_, totalForUser_of_nan s uid⟩
  unfold totalForUser
  rw [h]
  rfl

theorem claim_C1_total_witness :
    totalForUser egState 1 = PyFloat.finite 5 ∧
    totalForUser egState 7 = PyFloat.finite 0 ∧
    totalForUser egStateInf 1 = PyFloat.finite 0 := by
  refine ⟨?_, (claim_C1_total egState 7).2.1 (by decide),
    (claim_C1_total egStateInf 1).2.2 (by decide)⟩
  rw [(claim_C1_total egState 1).1 (by decide)]
  simp [expensesOf, egState, egExp1, egExp2]

/-- Claim C3, counterexample: the claim quantifies over every signup
request whose username already exists; a request with an existing
username but an empty password fails with the field-validation error,
not with DuplicateUsername. -/
theorem claim_C3_counterexample :
    (∃ u ∈ egState.users, u.username = pyStrip "alice") ∧
    (signup egState "alice" "").fst = SignupOutcome.validationError ∧
    (signup egState "alice" "").fst ≠ SignupOutcome.duplicateUsername := by
  decide

/-- Claim C3 (amended): if the submitted password is non-empty and the
stripped username is non-empty and already exists in the store, signup
fails with DuplicateUsername and the stored rows are unchanged. -/
theorem claim_C3_duplicate (s : AppState) (uname pwd : String)
    (hp : pwd ≠ "") (hu : pyStrip uname ≠ "")
    (hdup : (s.users.find? (fun u => u.username = pyStrip uname)).isSome) :
    (signup s uname pwd).fst = SignupOutcome.duplicateUsername ∧
    (signup s uname pwd).snd = s := by
  unfold signup
  rw [if_neg (not_or.mpr ⟨hu, hp⟩), if_pos hdup]
  exact ⟨rfl, rfl⟩

theorem claim_C3_duplicate_witness :
    (signup egState "  alice " "x").fst = SignupOutcome.duplicateUsername ∧
    (signup egState "  alice " "x").snd = egState :=
  claim_C3_duplicate egState "  alice " "x" (by decide) (by decide) (by decide)

/-- Claim C4: a delete request by an authenticated user for an expense
owned by a different user fails with Forbidden and leaves the stored
expenses (indeed the whole state) unchanged.  The primary-key invariant
(distinct expense ids) is assumed. -/
theorem claim_C4_forbidden (s : AppState) (u : User) (e : Expense)
    (hn : (s.expenses.map (·.id)).Nodup) (he : e ∈ s.expenses)
    (hown : e.user_id ≠ u.id) :
    (deleteExpense s u e.id).fst = DeleteOutcome.forbidden ∧
    (deleteExpense s u e.id).snd = s ∧
    e ∈ (deleteExpense s u e.id).snd.expenses := by
  have h2 : (deleteExpense s u e.id) = (DeleteOutcome.forbidden, s) := by
    unfold deleteExpense
    rw [find?_id_of_mem_nodup hn he]
    simp only [hown, ne_eq, not_false_eq_true, if_true]
  rw [h2]
  exact ⟨rfl, rfl, he⟩

theorem claim_C4_forbidden_witness :
    (deleteExpense egState egUser2 1).fst = DeleteOutcome.forbidden ∧
    (deleteExpense egState egUser2 1).snd = egState ∧
    egExp1 ∈ (deleteExpense egState egUser2 1).snd.expenses :=
  claim_C4_forbidden egState egUser2 egExp1 (by decide) (by decide) (by decide)

/-- Claim C5, counterexample: a POST to /delete/<id> with an unknown
expense id does not redirect to the dashboard; get_or_404 produces a 404
response instead. -/
theorem claim_C5_counterexample :
    deleteResponse (deleteExpense egStateNoExp egUser1 1).fst ≠
      HttpResp.redirectDashboard := by
  decide

/-- Claim C5 (amended): an authenticated POST to /delete/<id> redirects
to the dashboard when the expense id exists (whether the delete succeeds
or is forbidden), and yields a 404 not-found response when it does not. -/
theorem claim_C5_redirect (s : AppState) (u : User) (eid : Nat) :
    ((s.expenses.find? (fun e => e.id = eid)).isSome →
      deleteResponse (deleteExpense s u eid).fst = HttpResp.redirectDashboard) ∧
    (s.expenses.find? (fun e => e.id = eid) = none →
      deleteResponse (deleteExpense s u eid).fst = HttpResp.notFoundPage) := by
  constructor
  · intro h
    unfold deleteExpense
    cases hf : s.expenses.find? (fun e => e.id = eid) with
    | none => rw [hf] at h; simp at h
    | some e =>
      simp only
      by_cases ho : e.user_id ≠ u.id <;> simp [ho, deleteResponse]
  · intro h
    simp [deleteExpense, h, deleteResponse]

theorem claim_C5_redirect_witness :
    deleteResponse (deleteExpense egState egUser2 1).fst =
      HttpResp.redirectDashboard ∧
    deleteResponse (deleteExpense egStateNoExp egUser1 1).fst =
      HttpResp.notFoundPage :=
  ⟨(claim_C5_redirect egState egUser2 1).1 (by decide),
   (claim_C5_redirect egStateNoExp egUser1 1).2 (by decide)⟩

/-- Claim C6, counterexample: the claim quantifies over every numeric
amount, but at amount "nan" (which float() accepts) SQLite binds NaN as
NULL into the NOT NULL amount column, commit raises IntegrityError, and
no expense is created — even though the unparsable date is not at
fault. -/
theorem claim_C6_counterexample :
    (pythonFloatParse "nan").isSome ∧
    parseDateYMD "not-a-date" = none ∧
    (addExpense egState egUser1 "Tea" "nan" "Food" "not-a-date" "" egDate1).fst ≠
      AddOutcome.added ∧
    (addExpense egState egUser1 "Tea" "nan" "Food" "not-a-date" "" egDate1).snd =
      egState := by
  decide

/-- Claim C6 (amended): an authenticated add-expense submission with
non-empty title and category and a numeric amount other than NaN whose
date string does not parse as YYYY-MM-DD still creates the expense, with
stored date equal to the current UTC date at submission time; the
unparsable date itself never causes the operation to fail.  (With amount
NaN the insert fails with IntegrityError regardless of the date.) -/
theorem claim_C6_date_fallback (s : AppState) (u : User)
    (title amount category dateStr note : String) (now : Date)
    (ht : pyStrip title ≠ "") (hc : pyStrip category ≠ "")
    (ha : (pythonFloatParse amount).isSome)
    (hnan : pythonFloatParse amount ≠ some PyFloat.nan)
    (hd : parseDateYMD dateStr = none) :
    (addExpense s u title amount category dateStr note now).fst = AddOutcome.added ∧
    ∃ e : Expense,
      (addExpense s u title amount category dateStr note now).snd.expenses =
        s.expenses ++ [e] ∧ e.date = now := by
  have hne : amount ≠ "" := by
    intro h
    rw [h, pythonFloatParse_empty] at ha
    simp at ha
  obtain ⟨a, hpa⟩ := Option.isSome_iff_exists.mp ha
  have hanan : a ≠ PyFloat.nan := fun heq => hnan (heq ▸ hpa)
  have h3 : addExpense s u title amount category dateStr note now =
      (if a = PyFloat.nan then (.integrityError, s) else
        (.added,
          { s with
            expenses := s.expenses ++
              [⟨s.nextExpenseId, pyStrip title, a, pyStrip category,
                (parseDateYMD dateStr).getD now, pyStrip note, u.id⟩],
            nextExpenseId := s.nextExpenseId + 1 })) := by
    unfold addExpense
    rw [if_neg (not_or.mpr ⟨ht, not_or.mpr ⟨hne, hc⟩⟩), hpa]
  rw [h3, if_neg hanan]
  exact ⟨rfl, _, rfl, by simp [hd]⟩

theorem claim_C6_date_fallback_witness :
    (addExpense egState egUser1 "Tea" "2" "Food" "not-a-date" "" egDate1).fst =
      AddOutcome.added ∧
    ∃ e : Expense,
      (addExpense egState egUser1 "Tea" "2" "Food" "not-a-date" "" egDate1).snd.expenses =
        egState.expenses ++ [e] ∧ e.date = egDate1 :=
  claim_C6_date_fallback egState egUser1 "Tea" "2" "Food" "not-a-date" "" egDate1
    (by decide) (by decide) (by decide) (by decide) (by decide)

/-- Claim C7: a signup request with empty username or empty password
fails with the validation error and creates no account. -/
theorem claim_C7_empty_fields (s : AppState) (u p : String)
    (h : u = "" ∨ p = "") :
    (signup s u p).fst = SignupOutcome.validationError ∧
    (signup s u p).snd = s := by
  unfold signup
  have hc : pyStrip u = "" ∨ p = "" := by
    rcases h with h | h
    · left; rw [h]; rfl
    · right; exact h
  rw [if_pos hc]
  exact ⟨rfl, rfl⟩

theorem claim_C7_empty_fields_witness :
    (signup egState "" "x").fst = SignupOutcome.validationError ∧
    (signup egState "" "x").snd = egState :=
  claim_C7_empty_fields egState "" "x" (Or.inl rfl)

/-- Claim C8: listForUser returns exactly the user's expenses (as a
multiset), ordered by date descending; the relative order of expenses
sharing a date is left unspecified. -/
theorem claim_C8_list_sorted (s : AppState) (uid : Nat) :
    List.Perm (listForUser s uid) (expensesOf s uid) ∧
    (listForUser s uid).Pairwise (fun a b => dateGeb a.date b.date) := by
  constructor
  · exact List.mergeSort_perm _ _
  · exact List.sorted_mergeSort
      (fun a b c => dateGeb_trans a.date b.date c.date)
      (fun a b => dateGeb_total a.date b.date)
      (expensesOf s uid)

/-- Claim C9, counterexample: "nan" passes the float() acceptance check
but is not stored: SQLite binds NaN as NULL, the NOT NULL amount column
rejects the row, commit raises IntegrityError and the state is
unchanged. -/
theorem claim_C9_counterexample :
    (pythonFloatParse "nan").isSome ∧
    (addExpense egState egUser1 "Lunch" "nan" "Food" "2024-01-05" "" egDate2).fst ≠
      AddOutcome.added ∧
    (addExpense egState egUser1 "Lunch" "nan" "Food" "2024-01-05" "" egDate2).snd =
      egState := by
  decide

/-- Claim C9 (amended): an add-expense submission's amount passes the
float() check exactly when the string parses under Python float
semantics (modelled on ASCII literals); negative amounts and +inf and
-inf are accepted and stored unchanged, with no range or sign check; NaN
passes the float() check but SQLite binds it as NULL into the NOT NULL
amount column, so the insert fails with IntegrityError and no expense is
created; any other non-numeric string fails with a validation message
and creates no expense. -/
theorem claim_C9_amount_float (s : AppState) (u : User)
    (title amount category dateStr note : String) (now : Date)
    (ht : pyStrip title ≠ "") (hc : pyStrip category ≠ "") :
    ((addExpense s u title amount category dateStr note now).fst = AddOutcome.added ↔
      ((pythonFloatParse amount).isSome ∧
        pythonFloatParse amount ≠ some PyFloat.nan)) ∧
    (∀ a, pythonFloatParse amount = some a → a ≠ PyFloat.nan →
      (addExpense s u title amount category dateStr note now).snd.expenses =
        s.expenses ++
          [⟨s.nextExpenseId, pyStrip title, a, pyStrip category,
            (parseDateYMD dateStr).getD now, pyStrip note, u.id⟩]) ∧
    (pythonFloatParse amount = some PyFloat.nan →
      (addExpense s u title amount category dateStr note now).fst =
        AddOutcome.integrityError ∧
      (addExpense s u title amount category dateStr note now).snd = s) ∧
    (pythonFloatParse amount = none →
      (addExpense s u title amount category dateStr note now).snd = s) ∧
    (pythonFloatParse "-12.5").isSome ∧
    pythonFloatParse "inf" = some .inf ∧
    pythonFloatParse "-inf" = some .ninf ∧
    pythonFloatParse "nan" = some .nan ∧
    pythonFloatParse "abc" = none := by
  refine ⟨?_, ?_, ?_, ?_, by decide, by decide, by decide, by decide, by decide⟩
  · by_cases hne : amount = ""
    · subst hne
      unfold addExpense
      rw [if_pos (Or.inr (Or.inl rfl))]
      simp [pythonFloatParse_empty]
    · unfold addExpense
      rw [if_neg (not_or.mpr ⟨ht, not_or.mpr ⟨hne, hc⟩⟩)]
      cases hp : pythonFloatParse amount with
      | none => simp
      | some a =>
        by_cases han : a = PyFloat.nan
        · subst han
          simp
        · simp [han]
  · intro a hpa hanan
    have hne : amount ≠ "" := by
      intro h
      rw [h, pythonFloatParse_empty] at hpa
      cases hpa
    have h3 : addExpense s u title amount category dateStr note now =
        (if a = PyFloat.nan then (.integrityError, s) else
          (.added,
            { s with
              expenses := s.expenses ++
                [⟨s.nextExpenseId, pyStrip title, a, pyStrip category,
                  (parseDateYMD dateStr).getD now, pyStrip note, u.id⟩],
              nextExpenseId := s.nextExpenseId + 1 })) := by
      unfold addExpense
      rw [if_neg (not_or.mpr ⟨ht, not_or.mpr ⟨hne, hc⟩⟩), hpa]
    rw [h3, if_neg hanan]
  · intro hpn
    have hne : amount ≠ "" := by
      intro h
      rw [h, pythonFloatParse_empty] at hpn
      cases hpn
    have h3 : addExpense s u title amount category dateStr note now =
        (if PyFloat.nan = PyFloat.nan then ((AddOutcome.integrityError, s) :
            AddOutcome × AppState) else
          (.added,
            { s with
              expenses := s.expenses ++
                [⟨s.nextExpenseId, pyStrip title, PyFloat.nan, pyStrip category,
                  (parseDateYMD dateStr).getD now, pyStrip note, u.id⟩],
              nextExpenseId := s.nextExpenseId + 1 })) := by
      unfold addExpense
      rw [if_neg (not_or.mpr ⟨ht, not_or.mpr ⟨hne, hc⟩⟩), hpn]
    rw [h3, if_pos rfl]
    exact ⟨rfl, rfl⟩
  · intro hpn
    by_cases hne : amount = ""
    · subst hne
      unfold addExpense
      rw [if_pos (Or.inr (Or.inl rfl))]
    · unfold addExpense
      rw [if_neg (not_or.mpr ⟨ht, not_or.mpr ⟨hne, hc⟩⟩), hpn]

theorem claim_C9_amount_float_witness :
    (addExpense egState egUser1 "Lunch" "-inf" "Food" "2024-01-05" "" egDate2).fst =
      AddOutcome.added ∧
    (addExpense egState egUser1 "Lunch" "-inf" "Food" "2024-01-05" "" egDate2).snd.expenses =
      egState.expenses ++ [⟨3, "Lunch", .ninf, "Food", ⟨2024, 1, 5⟩, "", 1⟩] ∧
    (addExpense egState egUser1 "Lunch" "oops" "Food" "2024-01-05" "" egDate2).snd =
      egState ∧
    (addExpense egState egUser1 "Lunch" "nan" "Food" "2024-01-05" "" egDate2).fst =
      AddOutcome.integrityError := by
  have h := claim_C9_amount_float egState egUser1 "Lunch" "-inf" "Food"
    "2024-01-05" "" egDate2 (by decide) (by decide)
  have h2 := claim_C9_amount_float egState egUser1 "Lunch" "oops" "Food"
    "2024-01-05" "" egDate2 (by decide) (by decide)
  have h4 := claim_C9_amount_float egState egUser1 "Lunch" "nan" "Food"
    "2024-01-05" "" egDate2 (by decide) (by decide)
  refine ⟨h.1.mpr (by decide), ?_, h2.2.2.2.1 (by decide),
    (h4.2.2.1 (by decide)).1⟩
  have h3 := h.2.1 PyFloat.ninf (by decide) (by decide)
  rw [h3]
  rfl

/-- Claim C10: on signup and login the username is stripped of
surrounding whitespace before any check or storage (so a whitespace-only
username is rejected as empty, and a username submitted with surrounding
whitespace matches the stored trimmed username), while the password is
used verbatim: after a successful signup, login succeeds for any
whitespace-variant of the username exactly when the password is
character-for-character the one signed up with. -/
theorem claim_C10_strip_verbatim (s : AppState) (u p : String) :
    (pyStrip u = "" →
      (signup s u p).fst = SignupOutcome.validationError ∧
      (signup s u p).snd = s) ∧
    ((signup s u p).fst = SignupOutcome.success →
      (signup s u p).snd.users =
        s.users ++ [⟨s.nextUserId, pyStrip u, hashPassword p⟩] ∧
      ∀ u2 p2, pyStrip u2 = pyStrip u →
        (login (signup s u p).snd u2 p2 =
            some ⟨s.nextUserId, pyStrip u, hashPassword p⟩ ↔ p2 = p)) := by
  constructor
  · intro h
    unfold signup
    rw [if_pos (Or.inl h)]
    exact ⟨rfl, rfl⟩
  · intro hs
    have hcond : ¬(pyStrip u = "" ∨ p = "") := by
      intro hc
      unfold signup at hs
      rw [if_pos hc] at hs
      cases hs
    have hfind : s.users.find? (fun x => x.username = pyStrip u) = none := by
      cases hf : s.users.find? (fun x => x.username = pyStrip u) with
      | none => rfl
      | some x =>
        unfold signup at hs
        rw [if_neg hcond, if_pos (by rw [hf]; rfl)] at hs
        cases hs
    have hsnd : (signup s u p).snd =
        { s with
          users := s.users ++ [⟨s.nextUserId, pyStrip u, hashPassword p⟩],
          nextUserId := s.nextUserId + 1 } := by
      unfold signup
      rw [if_neg hcond, if_neg (by rw [hfind]; simp)]
    refine ⟨by rw [hsnd], ?_⟩
    intro u2 p2 hu2
    rw [hsnd]
    unfold login
    simp only [hu2]
    rw [find?_append_single _ _ _ hfind (by simp)]
    by_cases hpp : p2 = p
    · subst hpp
      simp [checkPasswordHash]
    · have hne2 : hashPassword p ≠ hashPassword p2 := fun h =>
        hpp (hashPassword_inj h).symm
      simp [checkPasswordHash, hne2, hpp]

theorem claim_C10_strip_verbatim_witness :
    ((signup egStateNoExp "   " "x").fst = SignupOutcome.validationError ∧
      (signup egStateNoExp "   " "x").snd = egStateNoExp) ∧
    login (signup egStateNoExp "  carol " " pw ").snd "carol" " pw " =
      some ⟨2, "carol", hashPassword " pw "⟩ ∧
    login (signup egStateNoExp "  carol " " pw ").snd "carol" "pw" ≠
      some ⟨2, "carol", hashPassword " pw "⟩ := by
  refine ⟨(claim_C10_strip_verbatim egStateNoExp "   " "x").1 (by decide), ?_, ?_⟩
  · have h := (claim_C10_strip_verbatim egStateNoExp "  carol " " pw ").2 (by decide)
    exact (h.2 "carol" " pw " (by decide)).mpr rfl
  · have h := (claim_C10_strip_verbatim egStateNoExp "  carol " " pw ").2 (by decide)
    intro hl
    exact absurd ((h.2 "carol" "pw" (by decide)).mp hl) (by decide)
